import Mathlib

/-!
Shallow embedding of the x402 gateway Solana program.

Embeds `src/chains/solana/programs/x402_gateway/src/lib.rs`: the state-record
layout, the instruction dispatcher (`process_instruction`) and the three
handlers (`process_initialize`, `process_set_smt_root`,
`process_pay_authorized`).

Modelling conventions:
* Bytes are `Nat`s (a well-formed byte is `< 256`); `Pubkey`s are 32-byte lists.
* Rust slice indexing `data[lo..hi]` panics when out of bounds; `readSlice` /
  `writeRange` return `none` there, and a handler result of `none` models the
  program aborting.
* External collaborators (PDA derivation `find_program_address`, `Rent::get`,
  `Clock::get`, and cross-program `invoke`) are fields of an `Env`; each CPI is
  recorded as an `Effect` in the result trace, and `Env.cpi` decides whether it
  succeeds (`none`) or fails with some `ProgramError`.
* A handler returns the effect trace, the (possibly updated) accounts list,
  and success or a `ProgramError` — matching `ProgramResult`.
-/

namespace X402Gateway

abbrev Bytes := List Nat

def STATE_SIZE : Nat := 8 + 32 + 32 + 32

def STATE_DISCRIMINATOR : Bytes := [0x78, 0x34, 0x30, 0x32, 0x5f, 0x73, 0x6d, 0x74]

def PROOF_LEN : Nat := 388

def WITNESS_LEN : Nat := 76

def PAY_AUTHORIZED_HEADER_LEN : Nat := 32 + 8 + 8

def PAY_AUTHORIZED_DATA_LEN : Nat := PAY_AUTHORIZED_HEADER_LEN + PROOF_LEN + WITNESS_LEN

/-- Instruction tags from `pub mod instruction`. -/
def INITIALIZE_STATE : Nat := 0

def SET_SMT_ROOT : Nat := 1

def PAY_AUTHORIZED : Nat := 2

/-- The `GatewayError` enum, `#[repr(u32)]`. -/
inductive GatewayError where
  | InvalidDataLength
  | InvalidStateAccount
  | SmtRootMismatch
  | InvalidStatePda
  | InvalidZkVerifier
  | AuthorizationExpired
  deriving DecidableEq, Repr

/-- The `as u32` discriminant of a `GatewayError`. -/
def GatewayError.code : GatewayError → Nat
  | .InvalidDataLength => 0
  | .InvalidStateAccount => 1
  | .SmtRootMismatch => 2
  | .InvalidStatePda => 3
  | .InvalidZkVerifier => 4
  | .AuthorizationExpired => 5

/-- The `ProgramError` values this program can produce or propagate.
`Custom n` is `ProgramError::Custom(n)`; CPI callees may return any value. -/
inductive ProgramError where
  | InvalidInstructionData
  | MissingRequiredSignature
  | NotEnoughAccountKeys
  | Custom (code : Nat)
  deriving DecidableEq, Repr

/-- The `impl From<GatewayError> for ProgramError` conversion. -/
def gatewayErr (e : GatewayError) : ProgramError := .Custom e.code

/-- The slice of an `AccountInfo` the program observes: key, signer flag,
and the account's data buffer. -/
structure AccountInfo where
  key : Bytes
  is_signer : Bool
  data : Bytes
  deriving DecidableEq, Repr

/-- One cross-program invocation issued by a handler.
`createAccount` is `system_instruction::create_account` (via `invoke_signed`),
`invokeVerify` is the `Instruction { program_id, accounts, data }` sent to the
external verifier, `transfer` is `system_instruction::transfer`. -/
inductive Effect where
  | createAccount (funder newAccount : Bytes) (lamports space : Nat) (owner : Bytes)
  | invokeVerify (programId : Bytes) (accountMetas : List Bytes) (data : Bytes)
  | transfer (source dest : Bytes) (lamports : Nat)
  deriving DecidableEq, Repr

/-- Success or failure of one invocation, as seen by the caller. -/
inductive HandlerResult where
  | success
  | failure (e : ProgramError)
  deriving DecidableEq, Repr

/-- External collaborators of one invocation: PDA derivation, rent minimum for
`STATE_SIZE`, the clock's `unix_timestamp`, and the CPI oracle (`none` means
the sub-invocation succeeded). -/
structure Env where
  derive : Bytes → Bytes → Bytes
  rentMin : Nat
  now : Int
  cpi : Effect → Option ProgramError

/-- Everything observable about one handler run: the CPIs it issued in order,
the accounts afterwards (with any data the handler wrote), and the outcome. -/
structure RunOut where
  trace : List Effect
  accounts : List AccountInfo
  result : HandlerResult
  deriving DecidableEq, Repr

/-- Rust `&bs[lo..hi]`: `none` models the out-of-range panic. -/
def readSlice (bs : Bytes) (lo hi : Nat) : Option Bytes :=
  if lo ≤ hi ∧ hi ≤ bs.length then some ((bs.drop lo).take (hi - lo)) else none

/-- Rust `bs[lo..hi].copy_from_slice(src)`: `none` models the out-of-range or
length-mismatch panic. -/
def writeRange (bs : Bytes) (lo hi : Nat) (src : Bytes) : Option Bytes :=
  if lo ≤ hi ∧ hi ≤ bs.length ∧ src.length = hi - lo then
    some (bs.take lo ++ src ++ bs.drop hi)
  else none

/-- Rust `u64::from_le_bytes` on a little-endian byte list. -/
def u64_from_le (bs : Bytes) : Nat :=
  bs.foldr (fun b acc => b + 256 * acc) 0

/-- Rust `as i64` on a `u64` value: two's-complement reinterpretation. -/
def u64_as_i64 (n : Nat) : Int :=
  if n < 2 ^ 63 then (n : Int) else (n : Int) - 2 ^ 64

/-- Error outcome with no effects and untouched accounts. -/
def bail (accounts : List AccountInfo) (e : ProgramError) : Option RunOut :=
  some ⟨[], accounts, .failure e⟩

/-- Embeds `process_initialize`. Account extraction by `next_account_info`
(admin, state account, system program — `NotEnoughAccountKeys` when the list
runs out) is rendered as one list match. After `create_account` succeeds the
state account holds `STATE_SIZE` zeroed bytes, which the handler overwrites
field by field. -/
def process_initialize (env : Env) (program_id : Bytes)
    (accounts : List AccountInfo) (init_data : Bytes) : Option RunOut :=
  if init_data.length ≠ 32 then
    bail accounts (gatewayErr .InvalidDataLength)
  else
    match accounts with
    | admin :: state_account :: _system_program :: _ =>
      if !admin.is_signer then
        bail accounts .MissingRequiredSignature
      else if state_account.key ≠ env.derive program_id admin.key then
        bail accounts (gatewayErr .InvalidStatePda)
      else
        let createEff := Effect.createAccount admin.key state_account.key
          env.rentMin STATE_SIZE program_id
        match env.cpi createEff with
        | some e => some ⟨[createEff], accounts, .failure e⟩
        | none =>
          match writeRange (List.replicate STATE_SIZE 0) 0 8 STATE_DISCRIMINATOR with
          | none => none
          | some d1 =>
            match writeRange d1 8 40 admin.key with
            | none => none
            | some d2 =>
              match writeRange d2 40 72 (List.replicate 32 0) with
              | none => none
              | some d3 =>
                match writeRange d3 72 104 init_data with
                | none => none
                | some d4 =>
                  some ⟨[createEff],
                    accounts.set 1 ⟨state_account.key, state_account.is_signer, d4⟩,
                    .success⟩
    | _ => bail accounts .NotEnoughAccountKeys

/-- Embeds `process_set_smt_root`. -/
def process_set_smt_root (env : Env) (program_id : Bytes)
    (accounts : List AccountInfo) (data : Bytes) : Option RunOut :=
  if data.length ≠ 32 then
    bail accounts (gatewayErr .InvalidDataLength)
  else
    match accounts with
    | admin :: state_account :: _ =>
      if !admin.is_signer then
        bail accounts .MissingRequiredSignature
      else if state_account.key ≠ env.derive program_id admin.key then
        bail accounts (gatewayErr .InvalidStatePda)
      else
        match readSlice state_account.data 0 8 with
        | none => none
        | some disc =>
          if disc ≠ STATE_DISCRIMINATOR then
            bail accounts (gatewayErr .InvalidStateAccount)
          else
            match writeRange state_account.data 40 72 data with
            | none => none
            | some newData =>
              some ⟨[],
                accounts.set 1 ⟨state_account.key, state_account.is_signer, newData⟩,
                .success⟩
    | _ => bail accounts .NotEnoughAccountKeys

/-- Embeds `process_pay_authorized`. -/
def process_pay_authorized (env : Env) (_program_id : Bytes)
    (accounts : List AccountInfo) (data : Bytes) : Option RunOut :=
  if data.length ≠ PAY_AUTHORIZED_DATA_LEN then
    bail accounts (gatewayErr .InvalidDataLength)
  else
    match accounts with
    | payer :: recipient :: state_account :: zk_verifier :: _system_program :: _ =>
      if !payer.is_signer then
        bail accounts .MissingRequiredSignature
      else
        match readSlice state_account.data 0 8 with
        | none => none
        | some disc =>
          if disc ≠ STATE_DISCRIMINATOR then
            bail accounts (gatewayErr .InvalidStateAccount)
          else
            match readSlice state_account.data 72 104 with
            | none => none
            | some configured_verifier =>
              if zk_verifier.key ≠ configured_verifier then
                bail accounts (gatewayErr .InvalidZkVerifier)
              else
                match readSlice data 32 40, readSlice data 40 48 with
                | none, _ => none
                | _, none => none
                | some amountBytes, some expiryBytes =>
                  let amount := u64_from_le amountBytes
                  let auth_expiry := u64_from_le expiryBytes
                  if env.now > u64_as_i64 auth_expiry then
                    bail accounts (gatewayErr .AuthorizationExpired)
                  else
                    match readSlice data 436 512 with
                    | none => none
                    | some witness_data =>
                      match readSlice state_account.data 40 72,
                            readSlice witness_data 12 44 with
                      | none, _ => none
                      | _, none => none
                      | some stored_smt_root, some witness_smt_root =>
                        if witness_smt_root ≠ stored_smt_root then
                          bail accounts (gatewayErr .SmtRootMismatch)
                        else
                          match readSlice data 48 436 with
                          | none => none
                          | some proof_bytes =>
                            let verifyEff := Effect.invokeVerify configured_verifier []
                              (proof_bytes ++ witness_data)
                            match env.cpi verifyEff with
                            | some e => some ⟨[verifyEff], accounts, .failure e⟩
                            | none =>
                              let transferEff := Effect.transfer payer.key recipient.key amount
                              match env.cpi transferEff with
                              | some e =>
                                some ⟨[verifyEff, transferEff], accounts, .failure e⟩
                              | none =>
                                some ⟨[verifyEff, transferEff], accounts, .success⟩
    | _ => bail accounts .NotEnoughAccountKeys

/-- Embeds `process_instruction`: the dispatcher. -/
def process_instruction (env : Env) (program_id : Bytes)
    (accounts : List AccountInfo) (instruction_data : Bytes) : Option RunOut :=
  match instruction_data with
  | [] => bail accounts .InvalidInstructionData
  | tag :: rest =>
    if tag = INITIALIZE_STATE then process_initialize env program_id accounts rest
    else if tag = SET_SMT_ROOT then process_set_smt_root env program_id accounts rest
    else if tag = PAY_AUTHORIZED then process_pay_authorized env program_id accounts rest
    else bail accounts .InvalidInstructionData

/-- Recognizer for value-transfer effects, used to count transfers in a trace. -/
def Effect.isTransfer : Effect → Bool
  | .transfer _ _ _ => true
  | _ => false

/-! Concrete fixtures.

A concrete environment and account set used by witness and counterexample
theorems. `envW.derive` maps everything to the 32-byte key `7…7`, which is
also `stateW.key`, so the PDA check passes; `envW.cpi` lets every CPI succeed,
`envFailW.cpi` fails every CPI with `Custom 99`. The record `stateDataW` has a
valid discriminator, an all-zero root and an all-zero verifier identity,
matching `zkvW.key`. -/

def pidW : Bytes := List.replicate 32 9

def envW : Env := ⟨fun _ _ => List.replicate 32 7, 1000, 0, fun _ => none⟩

def envFailW : Env := ⟨fun _ _ => List.replicate 32 7, 1000, 0,
  fun _ => some (.Custom 99)⟩

def stateDataW : Bytes := STATE_DISCRIMINATOR ++ List.replicate 96 0

def payerW : AccountInfo := ⟨List.replicate 32 1, true, []⟩

def payerNoSigW : AccountInfo := ⟨List.replicate 32 1, false, []⟩

def recipientW : AccountInfo := ⟨List.replicate 32 2, false, []⟩

def stateW : AccountInfo := ⟨List.replicate 32 7, false, stateDataW⟩

def stateEmptyW : AccountInfo := ⟨List.replicate 32 7, false, []⟩

def zkvW : AccountInfo := ⟨List.replicate 32 0, false, []⟩

def zkvBadW : AccountInfo := ⟨List.replicate 32 8, false, []⟩

def sysW : AccountInfo := ⟨List.replicate 32 3, false, []⟩

def adminW : AccountInfo := ⟨List.replicate 32 5, true, []⟩

def adminNoSigW : AccountInfo := ⟨List.replicate 32 5, false, []⟩

/-- An all-zero 512-byte PayAuthorized body: amount 0, expiry 0, zero proof,
witness whose embedded root is all zeros (matching `stateDataW`'s root). -/
def payloadZeroW : Bytes := List.replicate 512 0

/-- A 512-byte body whose `auth_expiry` field is `2^63` (byte `0x80` at
offset 47), all other bytes zero. -/
def payloadExpiryHighW : Bytes := List.replicate 47 0 ++ [128] ++ List.replicate 464 0

end X402Gateway

namespace X402Gateway

/-! Slice and write helper lemmas. -/

theorem readSlice_eq (bs : Bytes) (lo hi : Nat) (h1 : lo ≤ hi) (h2 : hi ≤ bs.length) :
    readSlice bs lo hi = some ((bs.drop lo).take (hi - lo)) := by
  simp [readSlice, h1, h2]

theorem writeRange_eq (bs : Bytes) (lo hi : Nat) (src : Bytes)
    (h1 : lo ≤ hi) (h2 : hi ≤ bs.length) (h3 : src.length = hi - lo) :
    writeRange bs lo hi src = some (bs.take lo ++ src ++ bs.drop hi) := by
  simp [writeRange, h1, h2, h3]

theorem writeRange_at (pre mid post src : Bytes) (lo hi : Nat)
    (hm : mid.length = src.length) (hlo : pre.length = lo) (hhi : lo + mid.length = hi) :
    writeRange (pre ++ mid ++ post) lo hi src = some (pre ++ src ++ post) := by
  rw [writeRange_eq _ _ _ _ (by omega) (by simp only [List.length_append]; omega) (by omega)]
  rw [show (pre ++ mid ++ post).take lo = pre from by
    rw [List.append_assoc]
    exact List.take_left' hlo]
  rw [show (pre ++ mid ++ post).drop hi = post from
    List.drop_left' (by simp only [List.length_append]; omega)]

theorem writeRange_last (pre mid src : Bytes) (lo hi : Nat)
    (hm : mid.length = src.length) (hlo : pre.length = lo) (hhi : lo + mid.length = hi) :
    writeRange (pre ++ mid) lo hi src = some (pre ++ src) := by
  rw [writeRange_eq _ _ _ _ (by omega) (by simp only [List.length_append]; omega) (by omega)]
  rw [List.take_left' hlo]
  rw [show (pre ++ mid).drop hi = [] from
    List.drop_eq_nil_iff.mpr (by simp only [List.length_append]; omega)]
  simp

/-- Bytes `[12,44)` of the witness region `[436,512)` are bytes `[448,480)`
of the body. -/
theorem witness_root_slice (l : Bytes) :
    (((l.drop 436).take 76).drop 12).take 32 = (l.drop 448).take 32 := by
  rw [List.drop_take, List.drop_drop, List.take_take]
  norm_num

/-! Handler characterizations. -/

/-- Characterization of `process_pay_authorized` on a five-account list, a
512-byte body and a record buffer of at least 104 bytes. -/
theorem pay_spec (env : Env) (pid : Bytes)
    (payer recipient st zkv sys : AccountInfo) (rest : List AccountInfo) (data : Bytes)
    (hlen : data.length = 512) (hst : 104 ≤ st.data.length) :
    process_pay_authorized env pid (payer :: recipient :: st :: zkv :: sys :: rest) data =
    (if !payer.is_signer then
      some ⟨[], payer :: recipient :: st :: zkv :: sys :: rest, .failure .MissingRequiredSignature⟩
    else if st.data.take 8 ≠ STATE_DISCRIMINATOR then
      some ⟨[], payer :: recipient :: st :: zkv :: sys :: rest,
        .failure (gatewayErr .InvalidStateAccount)⟩
    else if zkv.key ≠ (st.data.drop 72).take 32 then
      some ⟨[], payer :: recipient :: st :: zkv :: sys :: rest,
        .failure (gatewayErr .InvalidZkVerifier)⟩
    else if env.now > u64_as_i64 (u64_from_le ((data.drop 40).take 8)) then
      some ⟨[], payer :: recipient :: st :: zkv :: sys :: rest,
        .failure (gatewayErr .AuthorizationExpired)⟩
    else if (((data.drop 436).take 76).drop 12).take 32 ≠ (st.data.drop 40).take 32 then
      some ⟨[], payer :: recipient :: st :: zkv :: sys :: rest,
        .failure (gatewayErr .SmtRootMismatch)⟩
    else
      let verifyEff := Effect.invokeVerify ((st.data.drop 72).take 32) []
        ((data.drop 48).take 388 ++ (data.drop 436).take 76)
      match env.cpi verifyEff with
      | some e => some ⟨[verifyEff], payer :: recipient :: st :: zkv :: sys :: rest, .failure e⟩
      | none =>
        let transferEff := Effect.transfer payer.key recipient.key
          (u64_from_le ((data.drop 32).take 8))
        match env.cpi transferEff with
        | some e =>
          some ⟨[verifyEff, transferEff], payer :: recipient :: st :: zkv :: sys :: rest,
            .failure e⟩
        | none =>
          some ⟨[verifyEff, transferEff], payer :: recipient :: st :: zkv :: sys :: rest,
            .success⟩) := by
  have r1 : readSlice st.data 0 8 = some (st.data.take 8) := by
    rw [readSlice_eq st.data 0 8 (by omega) (by omega)]
    simp
  have r2 : readSlice st.data 72 104 = some ((st.data.drop 72).take 32) :=
    readSlice_eq st.data 72 104 (by omega) (by omega)
  have r3 : readSlice data 32 40 = some ((data.drop 32).take 8) :=
    readSlice_eq data 32 40 (by omega) (by omega)
  have r4 : readSlice data 40 48 = some ((data.drop 40).take 8) :=
    readSlice_eq data 40 48 (by omega) (by omega)
  have r5 : readSlice data 436 512 = some ((data.drop 436).take 76) :=
    readSlice_eq data 436 512 (by omega) (by omega)
  have r6 : readSlice st.data 40 72 = some ((st.data.drop 40).take 32) :=
    readSlice_eq st.data 40 72 (by omega) (by omega)
  have hw : ((data.drop 436).take 76).length = 76 := by
    simp [List.length_take, List.length_drop, hlen]
  have r7 : readSlice ((data.drop 436).take 76) 12 44 =
      some ((((data.drop 436).take 76).drop 12).take 32) :=
    readSlice_eq _ 12 44 (by omega) (by omega)
  have r8 : readSlice data 48 436 = some ((data.drop 48).take 388) :=
    readSlice_eq data 48 436 (by omega) (by omega)
  simp only [process_pay_authorized, PAY_AUTHORIZED_DATA_LEN, PAY_AUTHORIZED_HEADER_LEN,
    PROOF_LEN, WITNESS_LEN, hlen, r1, r2, r3, r4, r5, r6, r7, r8, bail]
  norm_num

/-- Characterization of `process_set_smt_root` on a two-account list, a
32-byte body and a record buffer of at least 104 bytes. -/
theorem set_root_spec (env : Env) (pid : Bytes) (admin st : AccountInfo)
    (rest : List AccountInfo) (data : Bytes)
    (hlen : data.length = 32) (hst : 104 ≤ st.data.length) :
    process_set_smt_root env pid (admin :: st :: rest) data =
    (if !admin.is_signer then
      some ⟨[], admin :: st :: rest, .failure .MissingRequiredSignature⟩
    else if st.key ≠ env.derive pid admin.key then
      some ⟨[], admin :: st :: rest, .failure (gatewayErr .InvalidStatePda)⟩
    else if st.data.take 8 ≠ STATE_DISCRIMINATOR then
      some ⟨[], admin :: st :: rest, .failure (gatewayErr .InvalidStateAccount)⟩
    else
      some ⟨[], (admin :: st :: rest).set 1
        ⟨st.key, st.is_signer, st.data.take 40 ++ data ++ st.data.drop 72⟩, .success⟩) := by
  have r1 : readSlice st.data 0 8 = some (st.data.take 8) := by
    rw [readSlice_eq st.data 0 8 (by omega) (by omega)]
    simp
  have w1 : writeRange st.data 40 72 data = some (st.data.take 40 ++ data ++ st.data.drop 72) :=
    writeRange_eq st.data 40 72 data (by omega) (by omega) (by omega)
  simp only [process_set_smt_root, hlen, r1, w1, bail]
  norm_num

/-- Characterization of `process_initialize` on a three-account list with a
32-byte verifier identity and a 32-byte admin key. -/
theorem init_spec (env : Env) (pid : Bytes) (admin st sys : AccountInfo)
    (rest : List AccountInfo) (init_data : Bytes)
    (hlen : init_data.length = 32) (hkey : admin.key.length = 32) :
    process_initialize env pid (admin :: st :: sys :: rest) init_data =
    (if !admin.is_signer then
      some ⟨[], admin :: st :: sys :: rest, .failure .MissingRequiredSignature⟩
    else if st.key ≠ env.derive pid admin.key then
      some ⟨[], admin :: st :: sys :: rest, .failure (gatewayErr .InvalidStatePda)⟩
    else
      let createEff := Effect.createAccount admin.key st.key env.rentMin STATE_SIZE pid
      match env.cpi createEff with
      | some e => some ⟨[createEff], admin :: st :: sys :: rest, .failure e⟩
      | none =>
        some ⟨[createEff], (admin :: st :: sys :: rest).set 1
          ⟨st.key, st.is_signer,
            STATE_DISCRIMINATOR ++ admin.key ++ List.replicate 32 0 ++ init_data⟩,
          .success⟩) := by
  have e1 : writeRange (List.replicate STATE_SIZE 0) 0 8 STATE_DISCRIMINATOR =
      some (STATE_DISCRIMINATOR ++ List.replicate 96 0) := by decide
  have e2 : writeRange (STATE_DISCRIMINATOR ++ List.replicate 96 0) 8 40 admin.key =
      some (STATE_DISCRIMINATOR ++ admin.key ++ List.replicate 64 0) := by
    rw [show (STATE_DISCRIMINATOR ++ List.replicate 96 0 : Bytes) =
        STATE_DISCRIMINATOR ++ List.replicate 32 0 ++ List.replicate 64 0 from by
      rw [List.append_assoc, ← List.replicate_add]]
    exact writeRange_at STATE_DISCRIMINATOR (List.replicate 32 0) (List.replicate 64 0)
      admin.key 8 40 (by simp [hkey]) (by decide) (by simp)
  have e3 : writeRange (STATE_DISCRIMINATOR ++ admin.key ++ List.replicate 64 0) 40 72
        (List.replicate 32 0) =
      some (STATE_DISCRIMINATOR ++ admin.key ++ List.replicate 32 0 ++ List.replicate 32 0) := by
    rw [show (STATE_DISCRIMINATOR ++ admin.key ++ List.replicate 64 0 : Bytes) =
        STATE_DISCRIMINATOR ++ admin.key ++ List.replicate 32 0 ++ List.replicate 32 0 from by
      rw [List.append_assoc (STATE_DISCRIMINATOR ++ admin.key), ← List.replicate_add]]
    exact writeRange_at (STATE_DISCRIMINATOR ++ admin.key) (List.replicate 32 0)
      (List.replicate 32 0) (List.replicate 32 0) 40 72
      rfl (by simp [STATE_DISCRIMINATOR, hkey]) (by norm_num)
  have e4 : writeRange
        (STATE_DISCRIMINATOR ++ admin.key ++ List.replicate 32 0 ++ List.replicate 32 0) 72 104
        init_data =
      some (STATE_DISCRIMINATOR ++ admin.key ++ List.replicate 32 0 ++ init_data) :=
    writeRange_last (STATE_DISCRIMINATOR ++ admin.key ++ List.replicate 32 0)
      (List.replicate 32 0) init_data 72 104
      (by simp [hlen]) (by simp [STATE_DISCRIMINATOR, hkey]) (by norm_num)
  simp only [ process_initialize, hlen, e1, e2, e3, e4, bail]
  norm_num

end X402Gateway

namespace X402Gateway

/-! Claim theorems. Spec error names map to the code's errors as follows:
MalformedInstruction is `ProgramError.InvalidInstructionData`,
InvalidPayloadLength is `Custom 0` (`InvalidDataLength`), MissingAuthorization
is `MissingRequiredSignature`, InvalidRecordAddress is `Custom 3`
(`InvalidStatePda`), CorruptOrUninitializedRecord is `Custom 1`
(`InvalidStateAccount`), UntrustedVerifier is `Custom 4` (`InvalidZkVerifier`),
AuthorizationExpired is `Custom 5`, CommitmentMismatch is `Custom 2`
(`SmtRootMismatch`). -/

set_option maxRecDepth 10000 in
/-- C1 counterexample: with `auth_expiry = 2^63` and current time `0`, the
payload passes the length, signer, discriminator and verifier checks, yet the
operation fails with AuthorizationExpired even though the current time does
not exceed the unsigned 64-bit `auth_expiry` — because the code compares
`now > auth_expiry as i64` and the cast wraps `2^63` to a negative value. -/
theorem C1_counterexample :
    process_pay_authorized envW pidW [payerW, recipientW, stateW, zkvW, sysW]
        payloadExpiryHighW =
      some ⟨[], [payerW, recipientW, stateW, zkvW, sysW],
        .failure (gatewayErr .AuthorizationExpired)⟩ ∧
    ¬ envW.now > ((u64_from_le ((payloadExpiryHighW.drop 40).take 8) : Nat) : Int) := by
  refine ⟨by decide, by decide⟩

/-- C1 (amended): a PayAuthorized invocation that passes the length, signer,
discriminator and verifier-identity checks fails with AuthorizationExpired iff
the current time strictly exceeds the little-endian `auth_expiry` at payload
bytes `[40,48)` reinterpreted as a signed two's-complement 64-bit integer
(Rust `as i64`); in particular on the boundary `now = auth_expiry as i64` the
expiry check passes. For `auth_expiry < 2^63` this coincides with the claimed
unsigned comparison. -/
theorem C1_pay_expiry (env : Env) (pid : Bytes)
    (payer recipient st zkv sys : AccountInfo) (rest : List AccountInfo) (data : Bytes)
    (hlen : data.length = 512) (hsig : payer.is_signer = true) (hst : 104 ≤ st.data.length)
    (hdisc : st.data.take 8 = STATE_DISCRIMINATOR)
    (hver : zkv.key = (st.data.drop 72).take 32) :
    (process_pay_authorized env pid (payer :: recipient :: st :: zkv :: sys :: rest) data =
      some ⟨[], payer :: recipient :: st :: zkv :: sys :: rest,
        .failure (gatewayErr .AuthorizationExpired)⟩) ↔
    env.now > u64_as_i64 (u64_from_le ((data.drop 40).take 8)) := by
  rw [pay_spec env pid payer recipient st zkv sys rest data hlen hst]
  by_cases hexp : env.now > u64_as_i64 (u64_from_le ((data.drop 40).take 8))
  · simp [hsig, hdisc, hver, hexp]
  · simp only [hsig, hdisc, hver, hexp, Bool.not_true, Bool.false_eq_true, if_false,
      ne_eq, not_true_eq_false, not_false_eq_true, if_true, iff_false]
    intro h
    split at h
    · simp [gatewayErr, GatewayError.code] at h
    · split at h
      · simp at h
      · split at h <;> simp at h

set_option maxRecDepth 10000 in
/-- C1 witness: the amended theorem applied at the all-zero payload, where the
expiry check passes (`0 > 0` is false). -/
theorem C1_witness :
    (process_pay_authorized envW pidW (payerW :: recipientW :: stateW :: zkvW :: sysW :: [])
        payloadZeroW =
      some ⟨[], payerW :: recipientW :: stateW :: zkvW :: sysW :: [],
        .failure (gatewayErr .AuthorizationExpired)⟩) ↔
    envW.now > u64_as_i64 (u64_from_le ((payloadZeroW.drop 40).take 8)) :=
  C1_pay_expiry envW pidW payerW recipientW stateW zkvW sysW [] payloadZeroW
    (by rw [payloadZeroW, List.length_replicate]) (by decide) (by decide) (by decide)
    (by decide)

/-- Helper for C2: a PayAuthorized invocation that reaches the commitment
check fails with SmtRootMismatch iff payload bytes `[448,480)` differ from
record bytes `[40,72)`. -/
theorem pay_mismatch_iff (env : Env) (pid : Bytes)
    (payer recipient st zkv sys : AccountInfo) (rest : List AccountInfo) (data : Bytes)
    (hlen : data.length = 512) (hsig : payer.is_signer = true) (hst : 104 ≤ st.data.length)
    (hdisc : st.data.take 8 = STATE_DISCRIMINATOR)
    (hver : zkv.key = (st.data.drop 72).take 32)
    (hexp : ¬ env.now > u64_as_i64 (u64_from_le ((data.drop 40).take 8))) :
    (process_pay_authorized env pid (payer :: recipient :: st :: zkv :: sys :: rest) data =
      some ⟨[], payer :: recipient :: st :: zkv :: sys :: rest,
        .failure (gatewayErr .SmtRootMismatch)⟩) ↔
    (data.drop 448).take 32 ≠ (st.data.drop 40).take 32 := by
  rw [pay_spec env pid payer recipient st zkv sys rest data hlen hst, witness_root_slice]
  by_cases hroot : (data.drop 448).take 32 = (st.data.drop 40).take 32
  · simp only [hsig, hdisc, hver, hexp, hroot, Bool.not_true, Bool.false_eq_true, if_false,
      ne_eq, not_true_eq_false, not_false_eq_true, if_true, iff_false]
    intro h
    split at h
    · simp at h
    · split at h <;> simp at h
  · simp [hsig, hdisc, hver, hexp, hroot]

/-- C2: a PayAuthorized invocation that reaches the commitment check fails
with CommitmentMismatch iff bytes `[12,44)` of the witness region (payload
bytes `[448,480)`) differ byte-for-byte from the record's stored root (record
bytes `[40,72)`); and this outcome is unchanged under any replacement of the
proof region `[48,436)` (payloads agreeing on `[0,48)` and `[436,512)` have
the same CommitmentMismatch outcome). -/
theorem C2_commitment (env : Env) (pid : Bytes)
    (payer recipient st zkv sys : AccountInfo) (rest : List AccountInfo) (data : Bytes)
    (hlen : data.length = 512) (hsig : payer.is_signer = true) (hst : 104 ≤ st.data.length)
    (hdisc : st.data.take 8 = STATE_DISCRIMINATOR)
    (hver : zkv.key = (st.data.drop 72).take 32)
    (hexp : ¬ env.now > u64_as_i64 (u64_from_le ((data.drop 40).take 8))) :
    ((process_pay_authorized env pid (payer :: recipient :: st :: zkv :: sys :: rest) data =
      some ⟨[], payer :: recipient :: st :: zkv :: sys :: rest,
        .failure (gatewayErr .SmtRootMismatch)⟩) ↔
      (data.drop 448).take 32 ≠ (st.data.drop 40).take 32) ∧
    (∀ data2 : Bytes, data2.length = 512 → data2.take 48 = data.take 48 →
      data2.drop 436 = data.drop 436 →
      ((process_pay_authorized env pid (payer :: recipient :: st :: zkv :: sys :: rest) data2 =
        some ⟨[], payer :: recipient :: st :: zkv :: sys :: rest,
          .failure (gatewayErr .SmtRootMismatch)⟩) ↔
       (process_pay_authorized env pid (payer :: recipient :: st :: zkv :: sys :: rest) data =
        some ⟨[], payer :: recipient :: st :: zkv :: sys :: rest,
          .failure (gatewayErr .SmtRootMismatch)⟩))) := by
  have base := pay_mismatch_iff env pid payer recipient st zkv sys rest data
    hlen hsig hst hdisc hver hexp
  refine ⟨base, ?_⟩
  intro data2 h2len h2head h2tail
  have hfield : (data2.drop 40).take 8 = (data.drop 40).take 8 := by
    have e1 := congrArg (List.drop 40) h2head
    simpa [List.drop_take] using e1
  have hexp2 : ¬ env.now > u64_as_i64 (u64_from_le ((data2.drop 40).take 8)) := by
    rw [hfield]
    exact hexp
  have base2 := pay_mismatch_iff env pid payer recipient st zkv sys rest data2
    h2len hsig hst hdisc hver hexp2
  rw [base, base2]
  have hroot448 : data2.drop 448 = data.drop 448 := by
    have e2 := congrArg (List.drop 12) h2tail
    simpa [List.drop_drop] using e2
  rw [hroot448]

set_option maxRecDepth 10000 in
/-- C2 witness: the commitment characterization applied at the all-zero
payload against the all-zero stored root. -/
theorem C2_witness :
    (process_pay_authorized envW pidW (payerW :: recipientW :: stateW :: zkvW :: sysW :: [])
        payloadZeroW =
      some ⟨[], payerW :: recipientW :: stateW :: zkvW :: sysW :: [],
        .failure (gatewayErr .SmtRootMismatch)⟩) ↔
    (payloadZeroW.drop 448).take 32 ≠ (stateW.data.drop 40).take 32 :=
  (C2_commitment envW pidW payerW recipientW stateW zkvW sysW [] payloadZeroW
    (by rw [payloadZeroW, List.length_replicate]) (by decide) (by decide) (by decide)
    (by decide)
    (by rw [show (payloadZeroW.drop 40).take 8 = List.replicate 8 0 from by
          rw [payloadZeroW, List.drop_replicate, List.take_replicate]
          norm_num]
        decide)).1

/-- C3 counterexample: a non-signer administrator together with 31-byte
initialization data fails with InvalidPayloadLength, not MissingAuthorization
— the code checks the data length before the signer flag, contradicting the
claimed order. -/
theorem C3_counterexample :
    process_initialize envW pidW [adminNoSigW, stateW, sysW] (List.replicate 31 0) =
      some ⟨[], [adminNoSigW, stateW, sysW], .failure (gatewayErr .InvalidDataLength)⟩ ∧
    adminNoSigW.is_signer = false ∧
    gatewayErr .InvalidDataLength ≠ .MissingRequiredSignature := by
  refine ⟨by decide, by decide, by decide⟩

/-- C3 (amended): InitializeState validates in the order: 32-byte length check
on the initialization data first (failing with InvalidPayloadLength regardless
of signer or address), then the signer check on the administrator (failing
with MissingAuthorization regardless of the target address), then the
record-address check (failing with InvalidRecordAddress). -/
theorem C3_init_order (env : Env) (pid : Bytes) :
    (∀ accounts init_data, init_data.length ≠ 32 →
      process_initialize env pid accounts init_data =
        some ⟨[], accounts, .failure (gatewayErr .InvalidDataLength)⟩) ∧
    (∀ admin st sys rest init_data, init_data.length = 32 → admin.is_signer = false →
      process_initialize env pid (admin :: st :: sys :: rest) init_data =
        some ⟨[], admin :: st :: sys :: rest, .failure .MissingRequiredSignature⟩) ∧
    (∀ admin st sys rest init_data, init_data.length = 32 → admin.is_signer = true →
      st.key ≠ env.derive pid admin.key →
      process_initialize env pid (admin :: st :: sys :: rest) init_data =
        some ⟨[], admin :: st :: sys :: rest, .failure (gatewayErr .InvalidStatePda)⟩) := by
  refine ⟨?_, ?_, ?_⟩
  · intro accounts init_data h
    simp [ process_initialize, h, bail]
  · intro admin st sys rest init_data hlen hsig
    simp [ process_initialize, hlen, hsig, bail]
  · intro admin st sys rest init_data hlen hsig hpda
    simp [ process_initialize, hlen, hsig, hpda, bail]

/-- C3 witness: the amended ordering applied at a concrete non-signer
administrator with well-formed 32-byte data. -/
theorem C3_witness :
    process_initialize envW pidW [adminNoSigW, stateW, sysW] (List.replicate 32 6) =
      some ⟨[], [adminNoSigW, stateW, sysW], .failure .MissingRequiredSignature⟩ :=
  (C3_init_order envW pidW).2.1 adminNoSigW stateW sysW [] (List.replicate 32 6)
    (by decide) (by decide)

/-- C4: the PayAuthorized validation pipeline short-circuits in the order
length (InvalidPayloadLength), payer signer (MissingAuthorization), record
discriminator (CorruptOrUninitializedRecord), verifier identity
(UntrustedVerifier), then expiry (AuthorizationExpired) — each failure is
independent of all later checks' inputs. -/
theorem C4_pay_order (env : Env) (pid : Bytes) :
    (∀ accounts data, data.length ≠ 512 →
      process_pay_authorized env pid accounts data =
        some ⟨[], accounts, .failure (gatewayErr .InvalidDataLength)⟩) ∧
    (∀ payer recipient st zkv sys rest data, data.length = 512 →
      payer.is_signer = false →
      process_pay_authorized env pid (payer :: recipient :: st :: zkv :: sys :: rest) data =
        some ⟨[], payer :: recipient :: st :: zkv :: sys :: rest,
          .failure .MissingRequiredSignature⟩) ∧
    (∀ payer recipient st zkv sys rest data, data.length = 512 →
      payer.is_signer = true → 8 ≤ st.data.length →
      st.data.take 8 ≠ STATE_DISCRIMINATOR →
      process_pay_authorized env pid (payer :: recipient :: st :: zkv :: sys :: rest) data =
        some ⟨[], payer :: recipient :: st :: zkv :: sys :: rest,
          .failure (gatewayErr .InvalidStateAccount)⟩) ∧
    (∀ payer recipient st zkv sys rest data, data.length = 512 →
      payer.is_signer = true → 104 ≤ st.data.length →
      st.data.take 8 = STATE_DISCRIMINATOR →
      zkv.key ≠ (st.data.drop 72).take 32 →
      process_pay_authorized env pid (payer :: recipient :: st :: zkv :: sys :: rest) data =
        some ⟨[], payer :: recipient :: st :: zkv :: sys :: rest,
          .failure (gatewayErr .InvalidZkVerifier)⟩) ∧
    (∀ payer recipient st zkv sys rest data, data.length = 512 →
      payer.is_signer = true → 104 ≤ st.data.length →
      st.data.take 8 = STATE_DISCRIMINATOR →
      zkv.key = (st.data.drop 72).take 32 →
      env.now > u64_as_i64 (u64_from_le ((data.drop 40).take 8)) →
      process_pay_authorized env pid (payer :: recipient :: st :: zkv :: sys :: rest) data =
        some ⟨[], payer :: recipient :: st :: zkv :: sys :: rest,
          .failure (gatewayErr .AuthorizationExpired)⟩) := by
  refine ⟨?_, ?_, ?_, ?_, ?_⟩
  · intro accounts data h
    simp [process_pay_authorized, PAY_AUTHORIZED_DATA_LEN, PAY_AUTHORIZED_HEADER_LEN,
      PROOF_LEN, WITNESS_LEN, h, bail]
  · intro payer recipient st zkv sys rest data hlen hsig
    simp [process_pay_authorized, PAY_AUTHORIZED_DATA_LEN, PAY_AUTHORIZED_HEADER_LEN,
      PROOF_LEN, WITNESS_LEN, hlen, hsig, bail]
  · intro payer recipient st zkv sys rest data hlen hsig h8 hdisc
    have r1 : readSlice st.data 0 8 = some (st.data.take 8) := by
      rw [readSlice_eq st.data 0 8 (by omega) (by omega)]
      simp
    simp [process_pay_authorized, PAY_AUTHORIZED_DATA_LEN, PAY_AUTHORIZED_HEADER_LEN,
      PROOF_LEN, WITNESS_LEN, hlen, hsig, r1, hdisc, bail]
  · intro payer recipient st zkv sys rest data hlen hsig h104 hdisc hver
    rw [pay_spec env pid payer recipient st zkv sys rest data hlen h104]
    simp [hsig, hdisc, hver]
  · intro payer recipient st zkv sys rest data hlen hsig h104 hdisc hver hexp
    rw [pay_spec env pid payer recipient st zkv sys rest data hlen h104]
    simp [hsig, hdisc, hver, hexp]

/-- C4 witness: the ordering applied at a concrete non-signer payer with a
well-formed 512-byte payload. -/
theorem C4_witness :
    process_pay_authorized envW pidW [payerNoSigW, recipientW, stateW, zkvW, sysW]
        payloadZeroW =
      some ⟨[], [payerNoSigW, recipientW, stateW, zkvW, sysW],
        .failure .MissingRequiredSignature⟩ :=
  (C4_pay_order envW pidW).2.1 payerNoSigW recipientW stateW zkvW sysW [] payloadZeroW
    (by rw [payloadZeroW, List.length_replicate]) (by decide)

end X402Gateway

namespace X402Gateway

/-- C5: when every local check of PayAuthorized passes, the verifier
sub-invocation is addressed to the record's stored verifier identity (record
bytes `[72,104)`, equal to the checked verifier handle's key), carries as data
exactly the 464-byte concatenation of the 388-byte proof (payload bytes
`[48,436)`) and the 76-byte witness (payload bytes `[436,512)`), carries no
account capabilities, and any failure of this sub-invocation propagates as
failure of the whole operation with no transfer effect issued. -/
theorem C5_verifier_call (env : Env) (pid : Bytes)
    (payer recipient st zkv sys : AccountInfo) (rest : List AccountInfo) (data : Bytes)
    (hlen : data.length = 512) (hsig : payer.is_signer = true) (hst : 104 ≤ st.data.length)
    (hdisc : st.data.take 8 = STATE_DISCRIMINATOR)
    (hver : zkv.key = (st.data.drop 72).take 32)
    (hexp : ¬ env.now > u64_as_i64 (u64_from_le ((data.drop 40).take 8)))
    (hroot : (data.drop 448).take 32 = (st.data.drop 40).take 32) :
    ((data.drop 48).take 388 ++ (data.drop 436).take 76).length = 464 ∧
    (st.data.drop 72).take 32 = zkv.key ∧
    (∀ e, env.cpi (Effect.invokeVerify ((st.data.drop 72).take 32) []
        ((data.drop 48).take 388 ++ (data.drop 436).take 76)) = some e →
      process_pay_authorized env pid (payer :: recipient :: st :: zkv :: sys :: rest) data =
        some ⟨[Effect.invokeVerify ((st.data.drop 72).take 32) []
            ((data.drop 48).take 388 ++ (data.drop 436).take 76)],
          payer :: recipient :: st :: zkv :: sys :: rest, .failure e⟩) := by
  have hroot' : (((data.drop 436).take 76).drop 12).take 32 = (st.data.drop 40).take 32 := by
    rw [witness_root_slice]
    exact hroot
  refine ⟨?_, hver.symm, ?_⟩
  · simp only [List.length_append, List.length_take, List.length_drop, hlen]
    norm_num
  · intro e he
    rw [pay_spec env pid payer recipient st zkv sys rest data hlen hst]
    simp [hsig, hdisc, hver, hexp, hroot', he]

set_option maxRecDepth 10000 in
/-- C5 witness: under an environment whose CPIs all fail with `Custom 99`,
the operation fails with exactly that error and a trace holding only the
verifier sub-invocation. -/
theorem C5_witness :
    process_pay_authorized envFailW pidW (payerW :: recipientW :: stateW :: zkvW :: sysW :: [])
        payloadZeroW =
      some ⟨[Effect.invokeVerify ((stateW.data.drop 72).take 32) []
          ((payloadZeroW.drop 48).take 388 ++ (payloadZeroW.drop 436).take 76)],
        payerW :: recipientW :: stateW :: zkvW :: sysW :: [], .failure (.Custom 99)⟩ :=
  (C5_verifier_call envFailW pidW payerW recipientW stateW zkvW sysW [] payloadZeroW
    (by rw [payloadZeroW, List.length_replicate]) (by decide) (by decide) (by decide)
    (by decide)
    (by rw [show (payloadZeroW.drop 40).take 8 = List.replicate 8 0 from by
          rw [payloadZeroW, List.drop_replicate, List.take_replicate]
          norm_num]
        decide)
    (by rw [show (payloadZeroW.drop 448).take 32 = List.replicate 32 0 from by
          rw [payloadZeroW, List.drop_replicate, List.take_replicate]
          norm_num]
        decide)).2.2 (.Custom 99) rfl

/-- C6: when every local check passes and both the verifier sub-invocation
and the transfer sub-invocation succeed, the operation succeeds with a trace
holding the verifier call followed by exactly one transfer, from the payer to
the recipient, of exactly the little-endian `amount` at payload bytes
`[32,40)`; the accounts (and hence every record field) are unchanged. -/
theorem C6_transfer (env : Env) (pid : Bytes)
    (payer recipient st zkv sys : AccountInfo) (rest : List AccountInfo) (data : Bytes)
    (hlen : data.length = 512) (hsig : payer.is_signer = true) (hst : 104 ≤ st.data.length)
    (hdisc : st.data.take 8 = STATE_DISCRIMINATOR)
    (hver : zkv.key = (st.data.drop 72).take 32)
    (hexp : ¬ env.now > u64_as_i64 (u64_from_le ((data.drop 40).take 8)))
    (hroot : (data.drop 448).take 32 = (st.data.drop 40).take 32)
    (hv : env.cpi (Effect.invokeVerify ((st.data.drop 72).take 32) []
      ((data.drop 48).take 388 ++ (data.drop 436).take 76)) = none)
    (ht : env.cpi (Effect.transfer payer.key recipient.key
      (u64_from_le ((data.drop 32).take 8))) = none) :
    (process_pay_authorized env pid (payer :: recipient :: st :: zkv :: sys :: rest) data =
      some ⟨[Effect.invokeVerify ((st.data.drop 72).take 32) []
          ((data.drop 48).take 388 ++ (data.drop 436).take 76),
        Effect.transfer payer.key recipient.key (u64_from_le ((data.drop 32).take 8))],
        payer :: recipient :: st :: zkv :: sys :: rest, .success⟩) ∧
    List.countP (fun eff => Effect.isTransfer eff)
      [Effect.invokeVerify ((st.data.drop 72).take 32) []
          ((data.drop 48).take 388 ++ (data.drop 436).take 76),
        Effect.transfer payer.key recipient.key (u64_from_le ((data.drop 32).take 8))] = 1 := by
  have hroot' : (((data.drop 436).take 76).drop 12).take 32 = (st.data.drop 40).take 32 := by
    rw [witness_root_slice]
    exact hroot
  constructor
  · rw [pay_spec env pid payer recipient st zkv sys rest data hlen hst]
    simp [hsig, hdisc, hver, hexp, hroot', hv, ht]
  · simp [Effect.isTransfer]

set_option maxRecDepth 10000 in
/-- C6 witness: a fully successful run on the all-zero payload, with the
verifier call followed by one transfer of amount 0 and unchanged accounts. -/
theorem C6_witness :
    process_pay_authorized envW pidW (payerW :: recipientW :: stateW :: zkvW :: sysW :: [])
        payloadZeroW =
      some ⟨[Effect.invokeVerify ((stateW.data.drop 72).take 32) []
          ((payloadZeroW.drop 48).take 388 ++ (payloadZeroW.drop 436).take 76),
        Effect.transfer payerW.key recipientW.key
          (u64_from_le ((payloadZeroW.drop 32).take 8))],
        payerW :: recipientW :: stateW :: zkvW :: sysW :: [], .success⟩ :=
  (C6_transfer envW pidW payerW recipientW stateW zkvW sysW [] payloadZeroW
    (by rw [payloadZeroW, List.length_replicate]) (by decide) (by decide) (by decide)
    (by decide)
    (by rw [show (payloadZeroW.drop 40).take 8 = List.replicate 8 0 from by
          rw [payloadZeroW, List.drop_replicate, List.take_replicate]
          norm_num]
        decide)
    (by rw [show (payloadZeroW.drop 448).take 32 = List.replicate 32 0 from by
          rw [payloadZeroW, List.drop_replicate, List.take_replicate]
          norm_num]
        decide)
    rfl rfl).1

end X402Gateway

namespace X402Gateway

/-- C7: a successful SetSmtRoot overwrites exactly record bytes `[40,72)` with
the 32-byte body, leaving bytes `[0,40)` (discriminator and admin) and
`[72,104)` (verifier identity) unchanged; it fails with
CorruptOrUninitializedRecord when the discriminator is invalid; and on every
failure path — wrong length, missing signer, wrong derived address, invalid
discriminator — the accounts (hence the record) are returned unmodified. -/
theorem C7_set_root (env : Env) (pid : Bytes) :
    (∀ admin st rest data, data.length = 32 → admin.is_signer = true →
      st.key = env.derive pid admin.key → 104 ≤ st.data.length →
      st.data.take 8 = STATE_DISCRIMINATOR →
      process_set_smt_root env pid (admin :: st :: rest) data =
        some ⟨[], (admin :: st :: rest).set 1
          ⟨st.key, st.is_signer, st.data.take 40 ++ data ++ st.data.drop 72⟩, .success⟩ ∧
      (st.data.take 40 ++ data ++ st.data.drop 72).take 40 = st.data.take 40 ∧
      (st.data.take 40 ++ data ++ st.data.drop 72).drop 72 = st.data.drop 72 ∧
      ((st.data.take 40 ++ data ++ st.data.drop 72).drop 40).take 32 = data) ∧
    (∀ admin st rest data, data.length = 32 → admin.is_signer = true →
      st.key = env.derive pid admin.key → 104 ≤ st.data.length →
      st.data.take 8 ≠ STATE_DISCRIMINATOR →
      process_set_smt_root env pid (admin :: st :: rest) data =
        some ⟨[], admin :: st :: rest, .failure (gatewayErr .InvalidStateAccount)⟩) ∧
    (∀ accounts data, data.length ≠ 32 →
      process_set_smt_root env pid accounts data =
        some ⟨[], accounts, .failure (gatewayErr .InvalidDataLength)⟩) ∧
    (∀ admin st rest data, data.length = 32 → admin.is_signer = false →
      process_set_smt_root env pid (admin :: st :: rest) data =
        some ⟨[], admin :: st :: rest, .failure .MissingRequiredSignature⟩) ∧
    (∀ admin st rest data, data.length = 32 → admin.is_signer = true →
      st.key ≠ env.derive pid admin.key →
      process_set_smt_root env pid (admin :: st :: rest) data =
        some ⟨[], admin :: st :: rest, .failure (gatewayErr .InvalidStatePda)⟩) := by
  refine ⟨?_, ?_, ?_, ?_, ?_⟩
  · intro admin st rest data hlen hsig hpda h104 hdisc
    refine ⟨?_, ?_, ?_, ?_⟩
    · rw [set_root_spec env pid admin st rest data hlen h104]
      rw [if_neg (by simp [hsig]), if_neg (by simp [hpda]), if_neg (by simp [hdisc])]
    · rw [List.append_assoc]
      exact List.take_left' (by rw [List.length_take]; omega)
    · exact List.drop_left' (by
        simp only [List.length_append, List.length_take, hlen]
        omega)
    · rw [List.append_assoc]
      rw [List.drop_left' (by rw [List.length_take]; omega)]
      exact List.take_left' hlen
  · intro admin st rest data hlen hsig hpda h104 hdisc
    rw [set_root_spec env pid admin st rest data hlen h104]
    rw [if_neg (by simp [hsig]), if_neg (by simp [hpda]), if_pos hdisc]
  · intro accounts data h
    simp [process_set_smt_root, h, bail]
  · intro admin st rest data hlen hsig
    simp [process_set_smt_root, hlen, hsig, bail]
  · intro admin st rest data hlen hsig hpda
    simp [process_set_smt_root, hlen, hsig, hpda, bail]

/-- C7 witness: a successful root rotation on a concrete valid record. -/
theorem C7_witness :
    process_set_smt_root envW pidW [adminW, stateW] (List.replicate 32 4) =
      some ⟨[], [adminW, stateW].set 1
        ⟨stateW.key, stateW.is_signer,
          stateW.data.take 40 ++ List.replicate 32 4 ++ stateW.data.drop 72⟩, .success⟩ :=
  ((C7_set_root envW pidW).1 adminW stateW [] (List.replicate 32 4)
    (by rw [List.length_replicate]) (by decide) (by decide) (by decide) (by decide)).1

/-- C8: a successful InitializeState creates the 104-byte record holding, in
order, the 8-byte discriminator at `[0,8)`, the administrator's 32-byte key at
`[8,40)`, an all-zero 32-byte commitment root at `[40,72)`, and the supplied
32-byte verifier identity at `[72,104)`. -/
theorem C8_init_layout (env : Env) (pid : Bytes) (admin st sys : AccountInfo)
    (rest : List AccountInfo) (init_data : Bytes)
    (hlen : init_data.length = 32) (hkey : admin.key.length = 32)
    (hsig : admin.is_signer = true) (hpda : st.key = env.derive pid admin.key)
    (hcreate :
      env.cpi (Effect.createAccount admin.key st.key env.rentMin STATE_SIZE pid) = none) :
    process_initialize env pid (admin :: st :: sys :: rest) init_data =
      some ⟨[Effect.createAccount admin.key st.key env.rentMin STATE_SIZE pid],
        (admin :: st :: sys :: rest).set 1 ⟨st.key, st.is_signer,
          STATE_DISCRIMINATOR ++ admin.key ++ List.replicate 32 0 ++ init_data⟩, .success⟩ ∧
    (STATE_DISCRIMINATOR ++ admin.key ++ List.replicate 32 0 ++ init_data).length = 104 ∧
    (STATE_DISCRIMINATOR ++ admin.key ++ List.replicate 32 0 ++ init_data).take 8 =
      STATE_DISCRIMINATOR ∧
    ((STATE_DISCRIMINATOR ++ admin.key ++ List.replicate 32 0 ++ init_data).drop 8).take 32 =
      admin.key ∧
    ((STATE_DISCRIMINATOR ++ admin.key ++ List.replicate 32 0 ++ init_data).drop 40).take 32 =
      List.replicate 32 0 ∧
    (STATE_DISCRIMINATOR ++ admin.key ++ List.replicate 32 0 ++ init_data).drop 72 =
      init_data := by
  refine ⟨?_, ?_, ?_, ?_, ?_, ?_⟩
  · rw [init_spec env pid admin st sys rest init_data hlen hkey]
    rw [if_neg (by simp [hsig]), if_neg (by simp [hpda])]
    simp only [hcreate]
  · simp [STATE_DISCRIMINATOR, hkey, hlen]
  · rw [List.append_assoc, List.append_assoc]
    exact List.take_left' (by decide)
  · rw [List.append_assoc, List.append_assoc]
    rw [List.drop_left' (by decide)]
    exact List.take_left' hkey
  · rw [List.append_assoc]
    rw [List.drop_left' (by simp [STATE_DISCRIMINATOR, hkey])]
    exact List.take_left' (by simp)
  · exact List.drop_left' (by simp [STATE_DISCRIMINATOR, hkey])

/-- C8 witness: a successful initialization with a concrete admin and verifier
identity. -/
theorem C8_witness :
    process_initialize envW pidW [adminW, stateW, sysW] (List.replicate 32 6) =
      some ⟨[Effect.createAccount adminW.key stateW.key envW.rentMin STATE_SIZE pidW],
        [adminW, stateW, sysW].set 1 ⟨stateW.key, stateW.is_signer,
          STATE_DISCRIMINATOR ++ adminW.key ++ List.replicate 32 0 ++ List.replicate 32 6⟩,
        .success⟩ :=
  (C8_init_layout envW pidW adminW stateW sysW [] (List.replicate 32 6)
    (by rw [List.length_replicate]) (by decide) (by decide) (by decide) rfl).1

/-- C9: the dispatcher fails with MalformedInstruction on an empty payload or
an unrecognized first byte, invoking no handler and issuing no effects;
otherwise tag 0 routes the remaining bytes to InitializeState, tag 1 to
SetSmtRoot, and tag 2 to PayAuthorized. -/
theorem C9_dispatcher (env : Env) (pid : Bytes) (accounts : List AccountInfo) :
    (process_instruction env pid accounts [] =
      some ⟨[], accounts, .failure .InvalidInstructionData⟩) ∧
    (∀ tag rest, tag ≠ 0 → tag ≠ 1 → tag ≠ 2 →
      process_instruction env pid accounts (tag :: rest) =
        some ⟨[], accounts, .failure .InvalidInstructionData⟩) ∧
    (∀ rest, process_instruction env pid accounts (0 :: rest) =
      process_initialize env pid accounts rest) ∧
    (∀ rest, process_instruction env pid accounts (1 :: rest) =
      process_set_smt_root env pid accounts rest) ∧
    (∀ rest, process_instruction env pid accounts (2 :: rest) =
      process_pay_authorized env pid accounts rest) := by
  refine ⟨?_, ?_, ?_, ?_, ?_⟩
  · simp [process_instruction, bail]
  · intro tag rest h0 h1 h2
    simp [process_instruction, INITIALIZE_STATE, SET_SMT_ROOT, PAY_AUTHORIZED, h0, h1, h2, bail]
  · intro rest
    simp [process_instruction, INITIALIZE_STATE]
  · intro rest
    simp [process_instruction, INITIALIZE_STATE, SET_SMT_ROOT]
  · intro rest
    simp [process_instruction, INITIALIZE_STATE, SET_SMT_ROOT, PAY_AUTHORIZED]

/-- C9 witness: the dispatcher rejects the unrecognized tag 7 on a concrete
invocation. -/
theorem C9_witness :
    process_instruction envW pidW [] [7] = some ⟨[], [], .failure .InvalidInstructionData⟩ :=
  (C9_dispatcher envW pidW []).2.1 7 [] (by decide) (by decide) (by decide)

/-- C10: when the state account's data buffer holds at least 104 bytes —
regardless of the other accounts' buffers — neither SetSmtRoot nor
PayAuthorized can reach the out-of-bounds abort branch; but on a record
buffer shorter than 8 bytes (with the earlier checks passing) each handler
aborts (`none`) instead of returning CorruptOrUninitializedRecord. -/
theorem C10_bounds (env : Env) (pid : Bytes) :
    (∀ admin st rest data, 104 ≤ st.data.length →
      process_set_smt_root env pid (admin :: st :: rest) data ≠ none) ∧
    (∀ payer recipient st zkv sys rest data, 104 ≤ st.data.length →
      process_pay_authorized env pid (payer :: recipient :: st :: zkv :: sys :: rest) data ≠
        none) ∧
    (∀ admin st rest data, data.length = 32 → admin.is_signer = true →
      st.key = env.derive pid admin.key → st.data.length < 8 →
      process_set_smt_root env pid (admin :: st :: rest) data = none) ∧
    (∀ payer recipient st zkv sys rest data, data.length = 512 → payer.is_signer = true →
      st.data.length < 8 →
      process_pay_authorized env pid (payer :: recipient :: st :: zkv :: sys :: rest) data =
        none) := by
  refine ⟨?_, ?_, ?_, ?_⟩
  · intro admin st rest data h104
    by_cases h : data.length = 32
    · rw [set_root_spec env pid admin st rest data h h104]
      split
      · simp
      · split
        · simp
        · split
          · simp
          · simp
    · simp [process_set_smt_root, bail, h]
  · intro payer recipient st zkv sys rest data h104
    by_cases h : data.length = 512
    · rw [pay_spec env pid payer recipient st zkv sys rest data h h104]
      split
      · simp
      · split
        · simp
        · split
          · simp
          · split
            · simp
            · simp only [ne_eq]
              cases env.cpi (Effect.invokeVerify (List.take 32 (List.drop 72 st.data)) []
                  (List.take 388 (List.drop 48 data) ++
                    List.take 76 (List.drop 436 data))) <;>
                cases env.cpi (Effect.transfer payer.key recipient.key
                  (u64_from_le (List.take 8 (List.drop 32 data)))) <;>
                split <;>
                simp
    · simp [process_pay_authorized, PAY_AUTHORIZED_DATA_LEN, PAY_AUTHORIZED_HEADER_LEN,
        PROOF_LEN, WITNESS_LEN, bail, h]
  · intro admin st rest data hlen hsig hpda hshort
    have rnone : readSlice st.data 0 8 = none := by
      simp only [readSlice, ite_eq_right_iff]
      intro hcond
      omega
    simp [process_set_smt_root, hlen, hsig, hpda, rnone]
  · intro payer recipient st zkv sys rest data hlen hsig hshort
    have rnone : readSlice st.data 0 8 = none := by
      simp only [readSlice, ite_eq_right_iff]
      intro hcond
      omega
    simp [process_pay_authorized, PAY_AUTHORIZED_DATA_LEN, PAY_AUTHORIZED_HEADER_LEN,
      PROOF_LEN, WITNESS_LEN, hlen, hsig, rnone]

/-- C10 witness: SetSmtRoot on an empty record buffer, with all earlier
checks passing, aborts instead of returning an error. -/
theorem C10_witness :
    process_set_smt_root envW pidW [adminW, stateEmptyW] (List.replicate 32 4) = none :=
  (C10_bounds envW pidW).2.2.1 adminW stateEmptyW [] (List.replicate 32 4)
    (by rw [List.length_replicate]) (by decide) (by decide) (by decide)

end X402Gateway
